import Mathlib

/-!
Shallow embedding of the AI Product Photo Editor core:

* `src/services/geminiService.ts` — `generatePhotos` and `refineImage`:
  prompt construction, generation-mode selection, request fan-out and
  response normalisation.  The remote API is modelled as an oracle giving,
  for each issued call (in issue order), the `candidates?.[0]?.content?.parts`
  of its response.
* the main application component (`App`) — per-result undo/redo history
  state and the handlers `handleGenerateClick`, `handleRefinement`,
  `handleUndo`, `handleRedo`, `handleRefinementPromptChange`.

Data URLs, prompts and ids are plain `String`s; JS array indices are `Int`
so that the `Math.max 0 _` / `Math.min _ _` clamping of the source is
preserved literally.
-/

/-- An `ImageAsset` at the service boundary: a self-describing
`data:<mime>;base64,<payload>` URL string. -/
abbrev ImageUrl := String

/-- A `File` at the upload boundary, as seen by `fileToGenerativePart`:
the base64 payload produced by the `FileReader` and the MIME `type`. -/
structure JsFile where
  content : String
  type : String
deriving DecidableEq, Repr, Inhabited

/-- One part of a `generateContent` request: the
`{ inlineData: { data, mimeType } }` / `{ text }` union of the SDK. -/
inductive ReqPart where
  | inlineData (mimeType data : String)
  | text (s : String)
deriving DecidableEq, Repr

/-- `fileToGenerativePart`: wraps a file's base64 content and MIME type
into an inline-data part. -/
def fileToGenerativePart (f : JsFile) : ReqPart := .inlineData f.type f.content

/-- One call issued to `ai.models.generateContent` (the model name and
response-modality config are identical on every call and omitted). -/
structure APICall where
  parts : List ReqPart
deriving DecidableEq, Repr

/-- One part of a response candidate's content: `inlineData` is present
(carrying `(mimeType, data)`) or absent. -/
structure RespPart where
  inlineData : Option (String × String)
deriving DecidableEq, Repr

/-- `response.candidates?.[0]?.content?.parts`; `none` models any of the
optional-chaining levels being absent. -/
abbrev GenResponse := Option (List RespPart)

/-- The response normalisation shared by all three call sites:
`parts.find(p => p.inlineData)` followed by building
`data:<mimeType>;base64,<data>` when inline data was found. -/
def extractImageUrl (r : GenResponse) : Option ImageUrl :=
  match r with
  | none => none
  | some parts =>
    match parts.find? (fun p => p.inlineData.isSome) with
    | some p =>
      match p.inlineData with
      | some (mt, d) => some ("data:" ++ mt ++ ";base64," ++ d)
      | none => none
    | none => none

/-- `const numberOfImages = 4` in `generatePhotos`. -/
def numberOfImages : Nat := 4

/-- Base prompt of the reference-photo branch of `generatePhotos`. -/
def referenceBasePrompt : String :=
  "Generate 1 product photo that matches the style of the reference photo. The logo, text, shape, and product color must not be altered."

/-- Base prompt of the model-photo branch of `generatePhotos`. -/
def modelBasePrompt : String :=
  "Generate a professional photo of the provided model holding or wearing the product. Add supporting props to make the photo more appealing. It is absolutely crucial that the model\x27s face remains consistent and unchanged from the source photo. Do not alter the facial features. Create a unique variation with a different body pose, facial expression, lighting, composition, or camera angle."

/-- Base prompt of the product-only branch of `generatePhotos`. -/
def productBasePrompt : String :=
  "Generate a professional variation of the product in the image with different lighting, composition, and camera angles. Add supporting props to make the product photo more appealing."

/-- The two truthiness-guarded appends shared by every branch:
`if (finalTheme) prompt += ...; if (additionalCommands) prompt += ...`
(a JS string is falsy exactly when empty). -/
def appendClauses (base finalTheme additionalCommands : String) : String :=
  let p1 := if finalTheme = "" then base
            else base ++ " The theme should be: " ++ finalTheme ++ "."
  if additionalCommands = "" then p1
  else p1 ++ " Additional instructions: " ++ additionalCommands ++ "."

/-- `generatePhotos(productPhoto, modelPhoto, referencePhoto, theme,
customTheme, additionalCommands)`.  `api i` is the response to the `i`-th
issued call.  Returns the list of issued calls (in issue order) together
with the returned image URLs.  The `Promise.all` fan-out is modelled by
reading the oracle at indices `0..3`; the aggregator reassembles results
by original call order, which this captures. -/
def generatePhotos (productPhoto : JsFile) (modelPhoto referencePhoto : Option JsFile)
    (theme customTheme additionalCommands : String)
    (api : Nat → GenResponse) : List APICall × List ImageUrl :=
  let finalTheme := if theme = "None" then customTheme else theme
  let productPart := fileToGenerativePart productPhoto
  match referencePhoto with
  | some rp =>
    -- Case 2: reference photo provided (generates 1 image)
    let prompt := appendClauses referenceBasePrompt finalTheme additionalCommands
    let referencePart := fileToGenerativePart rp
    let call : APICall := ⟨[productPart, referencePart, .text prompt]⟩
    match extractImageUrl (api 0) with
    | some url => ([call], [url])
    | none => ([call], [])
  | none =>
    let (basePrompt, parts) :=
      match modelPhoto with
      | some mp =>
        -- Case 1: model photo provided
        (modelBasePrompt, [productPart, fileToGenerativePart mp])
      | none =>
        -- Case 3: only product photo
        (productBasePrompt, [productPart])
    let fullPrompt := appendClauses basePrompt finalTheme additionalCommands
    let calls := (List.range numberOfImages).map
      (fun _ => (⟨parts ++ [.text fullPrompt]⟩ : APICall))
    let imageUrls :=
      ((List.range numberOfImages).map (fun i => extractImageUrl (api i))).reduceOption
    (calls, imageUrls)

/-- JS `String.prototype.indexOf` for a one-character needle: first
occurrence index, `-1` when absent. -/
def jsIndexOfChar (s : String) (c : Char) : Int :=
  match s.toList.indexOf? c with
  | some n => (n : Int)
  | none => -1

/-- JS `String.prototype.substring`: negative arguments clamp to `0`,
arguments past the length clamp to the length, and start/end swap when
start exceeds end. -/
def jsSubstring (s : String) (a b : Int) : String :=
  let n : Int := (s.toList.length : Int)
  let a0 := (max 0 (min a n)).toNat
  let b0 := (max 0 (min b n)).toNat
  ((s.toList.drop (min a0 b0)).take (max a0 b0 - min a0 b0)).asString

/-- `base64ImageData.substring(base64ImageData.indexOf(":") + 1,
base64ImageData.indexOf(";"))` in `refineImage`. -/
def dataUrlMimeType (s : String) : String :=
  jsSubstring s (jsIndexOfChar s ':' + 1) (jsIndexOfChar s ';')

/-- `base64ImageData.split(',')[1]` in `refineImage`: JS `split` on the
one-character separator `','`, modelled on the character list (`""`
standing in for the JS `undefined` when the string holds no comma). -/
def dataUrlData (s : String) : String :=
  ((s.toList.splitOn ',').map List.asString).getD 1 ""

/-- `refineImage(base64ImageData, command)`: the single issued call and
its outcome — `some url` is the returned data URL, `none` models the
thrown `Error("Failed to refine image.")` when the response holds no
image payload.  `api` is the response to the one call. -/
def refineImage (base64ImageData command : String) (api : GenResponse) :
    APICall × Option ImageUrl :=
  let imagePart : ReqPart :=
    .inlineData (dataUrlMimeType base64ImageData) (dataUrlData base64ImageData)
  let textPart : ReqPart := .text command
  (⟨[imagePart, textPart]⟩, extractImageUrl api)

/-- `ResultState` of `types.ts`: per-result linear undo/redo stack.
`currentIndex` is kept as `Int`, matching the JS number arithmetic of the
handlers. -/
structure ResultState where
  id : String
  imageHistory : List ImageUrl
  currentIndex : Int
  refinementPrompt : String
deriving DecidableEq, Repr, Inhabited

/-- `HistoryItem` of `types.ts`: one recorded generation batch. -/
structure HistoryItem where
  id : String
  results : List ResultState
deriving DecidableEq, Repr, Inhabited

/-- The slice of the `App` component state the handlers read and write:
`results`, `history` and the last error message. -/
structure AppState where
  results : List ResultState
  history : List HistoryItem
  error : Option String
deriving DecidableEq, Repr, Inhabited

/-- JS `String.prototype.trim`: strip whitespace from both ends
(modelled with `Char.isWhitespace`; the guard in `handleRefinement` only
tests the result for emptiness/falsiness). -/
def jsTrim (s : String) : String :=
  (((s.toList.dropWhile Char.isWhitespace).reverse.dropWhile
      Char.isWhitespace).reverse).asString

/-- `handleGenerateClick`.  When `productPhoto` is null: set the error and
return without calling the service.  Otherwise run `generatePhotos`, build
one fresh `ResultState` per returned URL (`imageHistory=[url]`,
`currentIndex=0`, empty prompt), replace `results`, and prepend a new
`HistoryItem` when at least one result was produced.  `now` stands for
`Date.now()` in the generated ids.  Also returns the calls issued. -/
def handleGenerateClick (productPhoto modelPhoto referencePhoto : Option JsFile)
    (activeTheme customTheme additionalCommands : String)
    (api : Nat → GenResponse) (now : Nat) (st : AppState) :
    AppState × List APICall :=
  match productPhoto with
  | none => ({ st with error := some "Product photo is required." }, [])
  | some p =>
    let newResults : List ResultState :=
      ((generatePhotos p modelPhoto referencePhoto activeTheme customTheme
          additionalCommands api).2).mapIdx (fun index url =>
        { id := "result-" ++ toString now ++ "-" ++ toString index,
          imageHistory := [url], currentIndex := 0, refinementPrompt := "" })
    ({ results := newResults,
       history :=
         if newResults.length > 0 then
           ({ id := "history-" ++ toString now, results := newResults } : HistoryItem)
             :: st.history
         else st.history,
       error := none },
     (generatePhotos p modelPhoto referencePhoto activeTheme customTheme
        additionalCommands api).1)

/-- `handleRefinement(resultId, command)`.  Guard: no-op when the id is
not found or the trimmed command is empty.  Otherwise call `refineImage`
on the entry's active image; on success truncate the stack to
`[0..currentIndex]`, append the new URL, jump `currentIndex` to the end
and clear the prompt; on the thrown failure set the error message and
leave `results` untouched.  `api` is the response to the single call. -/
def handleRefinement (resultId command : String) (api : GenResponse)
    (st : AppState) : AppState :=
  match st.results.findIdx? (fun r => r.id = resultId) with
  | none => st
  | some resultIndex =>
    if jsTrim command = "" then st
    else
      -- currentResult := results[resultIndex]; currentImageUrl :=
      -- currentResult.imageHistory[currentResult.currentIndex] (in-bounds
      -- under the invariant; `getD` with defaults stands for the JS lookups)
      match (refineImage ((st.results.getD resultIndex default).imageHistory.getD
          (st.results.getD resultIndex default).currentIndex.toNat "") command api).2 with
      | some newImageUrl =>
        { st with results := st.results.mapIdx (fun index res =>
            if index ≠ resultIndex then res
            else
              { res with
                imageHistory :=
                  res.imageHistory.take (res.currentIndex + 1).toNat ++ [newImageUrl],
                currentIndex :=
                  ((res.imageHistory.take (res.currentIndex + 1).toNat
                    ++ [newImageUrl]).length : Int) - 1,
                refinementPrompt := "" }) }
      | none => { st with error := some "Failed to refine the image." }

/-- `handleUndo(resultId)`: clamp the matching entry's index with
`Math.max(0, currentIndex - 1)`. -/
def handleUndo (resultId : String) (st : AppState) : AppState :=
  { st with results := st.results.map (fun res =>
      if res.id = resultId then
        { res with currentIndex := max 0 (res.currentIndex - 1) }
      else res) }

/-- `handleRedo(resultId)`: clamp the matching entry's index with
`Math.min(imageHistory.length - 1, currentIndex + 1)`. -/
def handleRedo (resultId : String) (st : AppState) : AppState :=
  { st with results := st.results.map (fun res =>
      if res.id = resultId then
        { res with
          currentIndex := min ((res.imageHistory.length : Int) - 1) (res.currentIndex + 1) }
      else res) }

/-- `handleRefinementPromptChange(resultId, prompt)`: pure field update of
the matching entry. -/
def handleRefinementPromptChange (resultId prompt : String) (st : AppState) :
    AppState :=
  { st with results := st.results.map (fun res =>
      if res.id = resultId then { res with refinementPrompt := prompt }
      else res) }

/-- The spec's per-entry invariant: `0 ≤ activeIndex ≤ versions.length - 1`. -/
def ResultState.WF (r : ResultState) : Prop :=
  0 ≤ r.currentIndex ∧ r.currentIndex ≤ (r.imageHistory.length : Int) - 1

instance (r : ResultState) : Decidable r.WF := by
  unfold ResultState.WF; infer_instance

/-- Modelled from the spec (§4.1 "Result"): the ordered sequence of the
images of exactly those calls that produced a usable image payload, in the
order the calls were issued — stated independently of `generatePhotos` to
compare the two. -/
def specOrderedImages (api : Nat → GenResponse) (numCalls : Nat) : List ImageUrl :=
  (List.range numCalls).filterMap (fun i => extractImageUrl (api i))

/-! ## Helper lemmas -/

theorem reduceOption_map_eq_filterMap {α β : Type} (g : α → Option β) (l : List α) :
    (l.map g).reduceOption = l.filterMap g := by
  show (l.map g).filterMap id = _
  rw [List.filterMap_map]
  rfl

theorem range_map_const {α : Type} (n : Nat) (c : α) :
    (List.range n).map (fun _ => c) = List.replicate n c := by
  rw [show (fun _ : Nat => c) = Function.const Nat c from rfl, List.map_const,
    List.length_range]

/-! ## Claims -/

/-- C3: with a reference image present — regardless of the model image —
`generatePhotos` issues exactly one call, whose parts are the product
part, the reference part and the instruction text, and returns at most
one image. -/
theorem c3_reference_mode_single_call (p : JsFile) (mp : Option JsFile) (rp : JsFile)
    (theme customTheme extra : String) (api : Nat → GenResponse) :
    (generatePhotos p mp (some rp) theme customTheme extra api).1 =
      [⟨[fileToGenerativePart p, fileToGenerativePart rp,
         .text (appendClauses referenceBasePrompt
           (if theme = "None" then customTheme else theme) extra)]⟩] ∧
    (generatePhotos p mp (some rp) theme customTheme extra api).2.length ≤ 1 := by
  unfold generatePhotos
  cases h : extractImageUrl (api 0) <;> simp [h]

/-- C4: with the reference image absent, `generatePhotos` issues exactly
four calls, all identical (hence carrying the same instruction text):
`[product, model, text]` when a model image is present and
`[product, text]` otherwise; it returns between 0 and 4 images, in the
order the calls were issued (each call's extracted image, misses
dropped). -/
theorem c4_four_call_fanout :
    (∀ (p m : JsFile) (theme customTheme extra : String) (api : Nat → GenResponse),
      (generatePhotos p (some m) none theme customTheme extra api).1 =
        List.replicate 4 ⟨[fileToGenerativePart p, fileToGenerativePart m,
          .text (appendClauses modelBasePrompt
            (if theme = "None" then customTheme else theme) extra)]⟩) ∧
    (∀ (p : JsFile) (theme customTheme extra : String) (api : Nat → GenResponse),
      (generatePhotos p none none theme customTheme extra api).1 =
        List.replicate 4 ⟨[fileToGenerativePart p,
          .text (appendClauses productBasePrompt
            (if theme = "None" then customTheme else theme) extra)]⟩) ∧
    (∀ (p : JsFile) (mp : Option JsFile) (theme customTheme extra : String)
        (api : Nat → GenResponse),
      (generatePhotos p mp none theme customTheme extra api).2.length ≤ 4 ∧
      (generatePhotos p mp none theme customTheme extra api).2 =
        (List.range 4).filterMap (fun i => extractImageUrl (api i))) := by
  refine ⟨fun p m theme ct extra api => ?_, fun p theme ct extra api => ?_,
          fun p mp theme ct extra api => ⟨?_, ?_⟩⟩
  · simp only [generatePhotos, numberOfImages]
    rw [range_map_const]
    rfl
  · simp only [generatePhotos, numberOfImages]
    rw [range_map_const]
    rfl
  · cases mp <;>
    · simp only [generatePhotos, numberOfImages]
      refine le_trans (List.reduceOption_length_le _) ?_
      simp
  · cases mp <;>
    · simp only [generatePhotos, numberOfImages]
      rw [reduceOption_map_eq_filterMap]

/-- C6: in every mode, the images `generatePhotos` returns are exactly
those of the calls that produced a usable image payload, in the order the
calls were issued (`specOrderedImages`, written from the spec's words,
over the number of issued calls). -/
theorem c6_result_order_preserved (p : JsFile) (mp rp : Option JsFile)
    (theme customTheme extra : String) (api : Nat → GenResponse) :
    (generatePhotos p mp rp theme customTheme extra api).2 =
      specOrderedImages api (generatePhotos p mp rp theme customTheme extra api).1.length := by
  cases rp with
  | some r =>
    show (match extractImageUrl (api 0) with
          | some url => (_, [url])
          | none => (_, ([] : List ImageUrl))).2 = _
    cases h : extractImageUrl (api 0) <;>
      simp [generatePhotos, specOrderedImages, List.range_succ, h]
  | none =>
    have hlen : (generatePhotos p mp none theme customTheme extra api).1.length = 4 := by
      cases mp <;> simp [generatePhotos, numberOfImages]
    rw [hlen]
    cases mp <;>
    · simp only [generatePhotos, numberOfImages, specOrderedImages]
      rw [reduceOption_map_eq_filterMap]

/-- C7: with the product photo absent, `handleGenerateClick` issues no
call, leaves `results` and `history` untouched, and only records the
validation error message. -/
theorem c7_missing_product_no_call (modelPhoto referencePhoto : Option JsFile)
    (theme customTheme extra : String) (api : Nat → GenResponse) (now : Nat)
    (st : AppState) :
    (handleGenerateClick none modelPhoto referencePhoto theme customTheme extra
        api now st).2 = [] ∧
    (handleGenerateClick none modelPhoto referencePhoto theme customTheme extra
        api now st).1.results = st.results ∧
    (handleGenerateClick none modelPhoto referencePhoto theme customTheme extra
        api now st).1.history = st.history ∧
    (handleGenerateClick none modelPhoto referencePhoto theme customTheme extra
        api now st).1.error = some "Product photo is required." :=
  ⟨rfl, rfl, rfl, rfl⟩
theorem appendClauses_decomp (base ft extra : String) :
    appendClauses base ft extra =
      base ++ (if ft = "" then "" else " The theme should be: " ++ ft ++ ".")
           ++ (if extra = "" then "" else " Additional instructions: " ++ extra ++ ".") := by
  by_cases h1 : ft = "" <;> by_cases h2 : extra = ""
  · simp [appendClauses, h1, h2]
  · simp [appendClauses, h1, h2, String.append_assoc]
  · simp [appendClauses, h1, h2, String.append_assoc]
  · simp only [appendClauses, if_neg h1, if_neg h2]
    simp only [String.append_assoc]

/-- C5: every instruction text of every call `generatePhotos` issues is a
mode base prompt, followed by the theme clause exactly when the effective
theme — `customTheme` when `theme` is the `"None"` sentinel, `theme`
otherwise — is non-empty, followed by the extra-instructions clause
exactly when `extraInstructions` is non-empty. -/
theorem c5_effective_theme_clauses (theme customTheme extra : String) (p : JsFile)
    (mp rp : Option JsFile) (api : Nat → GenResponse) (call : APICall)
    (hc : call ∈ (generatePhotos p mp rp theme customTheme extra api).1)
    (t : String) (ht : ReqPart.text t ∈ call.parts) :
    t = referenceBasePrompt
        ++ (if (if theme = "None" then customTheme else theme) = "" then ""
            else " The theme should be: "
              ++ (if theme = "None" then customTheme else theme) ++ ".")
        ++ (if extra = "" then "" else " Additional instructions: " ++ extra ++ ".") ∨
    t = modelBasePrompt
        ++ (if (if theme = "None" then customTheme else theme) = "" then ""
            else " The theme should be: "
              ++ (if theme = "None" then customTheme else theme) ++ ".")
        ++ (if extra = "" then "" else " Additional instructions: " ++ extra ++ ".") ∨
    t = productBasePrompt
        ++ (if (if theme = "None" then customTheme else theme) = "" then ""
            else " The theme should be: "
              ++ (if theme = "None" then customTheme else theme) ++ ".")
        ++ (if extra = "" then "" else " Additional instructions: " ++ extra ++ ".") := by
  cases rp with
  | some r =>
    refine Or.inl ?_
    cases h : extractImageUrl (api 0) <;>
    · simp only [generatePhotos, h] at hc
      simp only [List.mem_singleton] at hc
      subst hc
      simp only [fileToGenerativePart, List.mem_cons, List.not_mem_nil, or_false] at ht
      rcases ht with h1 | h1 | h1
      · exact ReqPart.noConfusion h1
      · exact ReqPart.noConfusion h1
      · injection h1 with h2
        rw [h2]
        exact appendClauses_decomp ..
  | none =>
    cases mp with
    | some m =>
      refine Or.inr (Or.inl ?_)
      simp only [generatePhotos, numberOfImages] at hc
      rw [range_map_const] at hc
      have he := List.eq_of_mem_replicate hc
      subst he
      simp only [fileToGenerativePart, List.cons_append, List.nil_append,
        List.mem_cons, List.not_mem_nil, or_false] at ht
      rcases ht with h1 | h1 | h1
      · exact ReqPart.noConfusion h1
      · exact ReqPart.noConfusion h1
      · injection h1 with h2
        rw [h2]
        exact appendClauses_decomp ..
    | none =>
      refine Or.inr (Or.inr ?_)
      simp only [generatePhotos, numberOfImages] at hc
      rw [range_map_const] at hc
      have he := List.eq_of_mem_replicate hc
      subst he
      simp only [fileToGenerativePart, List.cons_append, List.nil_append,
        List.mem_cons, List.not_mem_nil, or_false] at ht
      rcases ht with h1 | h1
      · exact ReqPart.noConfusion h1
      · injection h1 with h2
        rw [h2]
        exact appendClauses_decomp ..

theorem indexOf?_sep (c : Char) (l1 l2 : List Char) (h : c ∉ l1) :
    List.indexOf? c (l1 ++ c :: l2) = some l1.length := by
  show List.findIdx? (· == c) (l1 ++ c :: l2) = _
  rw [List.findIdx?_append]
  have hnone : List.findIdx? (fun x => x == c) l1 = none := by
    rw [List.findIdx?_eq_none_iff]
    intro x hx
    show (x == c) = false
    exact beq_eq_false_iff_ne.mpr fun e => h (e ▸ hx)
  rw [hnone, Option.none_or, List.findIdx?_cons]
  simp

theorem splitOn_sep (c : Char) (l1 l2 : List Char) (h1 : c ∉ l1) (h2 : c ∉ l2) :
    (l1 ++ c :: l2).splitOn c = [l1, l2] := by
  induction l1 with
  | nil =>
    show (c :: l2).splitOnP (· == c) = _
    rw [List.splitOnP_cons, if_pos (beq_self_eq_true c)]
    rw [List.splitOnP_eq_single]
    intro x hx e
    exact h2 ((eq_of_beq e) ▸ hx)
  | cons x xs ih =>
    have hx : ¬ x = c := fun e => h1 (e ▸ List.mem_cons_self x xs)
    have hxs : c ∉ xs := fun hm => h1 (List.mem_cons_of_mem x hm)
    show ((x :: (xs ++ c :: l2)).splitOnP (· == c)) = _
    rw [List.splitOnP_cons]
    have hb : (x == c) = false := beq_eq_false_iff_ne.mpr hx
    rw [hb, if_neg Bool.false_ne_true]
    have ihs : (xs ++ c :: l2).splitOnP (· == c) = [xs, l2] := ih hxs
    rw [ihs]
    rfl

theorem dataUrl_roundtrip (m d : String) (hm1 : ';' ∉ m.toList)
    (hm2 : ',' ∉ m.toList) (hd : ',' ∉ d.toList) :
    dataUrlMimeType ("data:" ++ m ++ ";base64," ++ d) = m ∧
    dataUrlData ("data:" ++ m ++ ";base64," ++ d) = d := by
  have hL : ("data:" ++ m ++ ";base64," ++ d).toList =
      ['d','a','t','a',':'] ++
        (m.toList ++ (';' :: (['b','a','s','e','6','4'] ++ (',' :: d.toList)))) := by
    show ("data:" ++ m ++ ";base64," ++ d).data = _
    simp only [String.data_append, List.append_assoc]
    rfl
  have hL2 : ("data:" ++ m ++ ";base64," ++ d).toList =
      (['d','a','t','a',':'] ++ (m.toList ++ (';' :: ['b','a','s','e','6','4']))) ++
        (',' :: d.toList) := by
    show ("data:" ++ m ++ ";base64," ++ d).data = _
    simp only [String.data_append, List.append_assoc, List.cons_append]
    rfl
  have hlen : ("data:" ++ m ++ ";base64," ++ d).toList.length =
      13 + m.toList.length + d.toList.length := by
    rw [hL]
    simp [List.length_append]
    omega
  have hidx1 : List.indexOf? ':' ("data:" ++ m ++ ";base64," ++ d).toList = some 4 := by
    rw [hL]
    have he : (['d','a','t','a',':'] : List Char) ++
        (m.toList ++ (';' :: (['b','a','s','e','6','4'] ++ (',' :: d.toList)))) =
        ['d','a','t','a'] ++ ':' ::
        (m.toList ++ (';' :: (['b','a','s','e','6','4'] ++ (',' :: d.toList)))) := rfl
    rw [he, indexOf?_sep _ _ _ (by decide)]
    rfl
  have hidx2 : List.indexOf? ';' ("data:" ++ m ++ ";base64," ++ d).toList =
      some (5 + m.toList.length) := by
    rw [hL, ← List.append_assoc]
    rw [indexOf?_sep]
    · simp only [List.length_append, List.length_cons]
      norm_num
    · intro hm
      rcases List.mem_append.mp hm with h | h
      · exact absurd h (by decide)
      · exact hm1 h
  constructor
  · show jsSubstring _ (jsIndexOfChar _ ':' + 1) (jsIndexOfChar _ ';') = m
    have e1 : jsIndexOfChar ("data:" ++ m ++ ";base64," ++ d) ':' = 4 := by
      unfold jsIndexOfChar
      rw [hidx1]
      rfl
    have e2 : jsIndexOfChar ("data:" ++ m ++ ";base64," ++ d) ';' =
        5 + (m.toList.length : Int) := by
      unfold jsIndexOfChar
      rw [hidx2]
      show ((5 + m.toList.length : Nat) : Int) = 5 + (m.toList.length : Int)
      push_cast
      ring
    rw [e1, e2]
    simp only [jsSubstring]
    have ha : (max 0 (min ((4 : Int) + 1)
        ((("data:" ++ m ++ ";base64," ++ d).toList.length : Int)))).toNat = 5 := by
      rw [hlen]
      push_cast
      omega
    have hb : (max 0 (min ((5 : Int) + (m.toList.length : Int))
        ((("data:" ++ m ++ ";base64," ++ d).toList.length : Int)))).toNat =
        5 + m.toList.length := by
      rw [hlen]
      push_cast
      omega
    rw [ha, hb]
    have hmin : min 5 (5 + m.toList.length) = 5 := by omega
    have hmax : max 5 (5 + m.toList.length) - min 5 (5 + m.toList.length) =
        m.toList.length := by omega
    rw [hmax, hmin, hL]
    have hdrop : ((['d','a','t','a',':'] : List Char) ++
        (m.toList ++ (';' :: (['b','a','s','e','6','4'] ++ (',' :: d.toList))))).drop 5 =
        m.toList ++ (';' :: (['b','a','s','e','6','4'] ++ (',' :: d.toList))) := by
      simp
    rw [hdrop, List.take_left]
    rfl
  · show ((("data:" ++ m ++ ";base64," ++ d).toList.splitOn ',').map List.asString).getD 1 "" = d
    rw [hL2, splitOn_sep]
    · rfl
    · intro hm
      rcases List.mem_append.mp hm with h | h
      · exact absurd h (by decide)
      · rcases List.mem_append.mp h with h' | h'
        · exact hm2 h'
        · rcases List.mem_cons.mp h' with h'' | h''
          · exact absurd h'' (by decide)
          · exact absurd h'' (by decide)
    · exact hd

/-- C8: `refineImage` issues exactly one call whose parts are the image
part re-encoded from `currentImage` (faithfully carrying its MIME type
and payload for well-formed data URLs) and the instruction text; it
returns the new asset when the response holds an image payload and fails
otherwise; and on that failure `handleRefinement` leaves the entries
(versions, active index, pending prompt) and the history untouched and
surfaces the error message. -/
theorem c8_refine_call_and_failure :
    (∀ (s cmd : String) (api : GenResponse),
      (refineImage s cmd api).1 =
        ⟨[.inlineData (dataUrlMimeType s) (dataUrlData s), .text cmd]⟩) ∧
    (∀ (m d : String), ';' ∉ m.toList → ',' ∉ m.toList → ',' ∉ d.toList →
      ∀ (cmd : String) (api : GenResponse),
        (refineImage ("data:" ++ m ++ ";base64," ++ d) cmd api).1 =
          ⟨[.inlineData m d, .text cmd]⟩) ∧
    (∀ (s cmd : String) (api : GenResponse) (url : ImageUrl),
      extractImageUrl api = some url → (refineImage s cmd api).2 = some url) ∧
    (∀ (s cmd : String) (api : GenResponse),
      extractImageUrl api = none → (refineImage s cmd api).2 = none) ∧
    (∀ (rid cmd : String) (api : GenResponse) (st : AppState),
      extractImageUrl api = none →
        (handleRefinement rid cmd api st).results = st.results ∧
        (handleRefinement rid cmd api st).history = st.history) ∧
    (∀ (rid cmd : String) (api : GenResponse) (st : AppState) (k : Nat),
      st.results.findIdx? (fun r => r.id = rid) = some k → ¬ jsTrim cmd = "" →
      extractImageUrl api = none →
        (handleRefinement rid cmd api st).error =
          some "Failed to refine the image.") := by
  refine ⟨fun s cmd api => rfl, ?_, fun s cmd api url h => ?_, fun s cmd api h => ?_,
          fun rid cmd api st h => ?_, fun rid cmd api st k hk hcmd h => ?_⟩
  · intro m d hm1 hm2 hd cmd api
    obtain ⟨e1, e2⟩ := dataUrl_roundtrip m d hm1 hm2 hd
    show (⟨[.inlineData (dataUrlMimeType _) (dataUrlData _), .text cmd]⟩ : APICall) = _
    rw [e1, e2]
  · show extractImageUrl api = some url
    exact h
  · show extractImageUrl api = none
    exact h
  · unfold handleRefinement
    split
    · exact ⟨rfl, rfl⟩
    · split
      · exact ⟨rfl, rfl⟩
      · split
        · rename_i url heq
          have h2 : extractImageUrl api = some url := heq
          rw [h] at h2
          exact Option.noConfusion h2
        · exact ⟨rfl, rfl⟩
  · unfold handleRefinement
    split
    · rename_i hnone
      rw [hk] at hnone
      exact Option.noConfusion hnone
    · rename_i k2 hk2
      split
      · exact absurd (by assumption) hcmd
      · split
        · rename_i url heq
          have h2 : extractImageUrl api = some url := heq
          rw [h] at h2
          exact Option.noConfusion h2
        · rfl

/-- C9 counterexample: a generation that succeeds (no error recorded) but
produces zero images — every call's response carries no image payload —
prepends no batch: the batch list stays empty, refuting "for every
successful generation, recordBatch prepends a new HistoryBatch". -/
theorem c9_counterexample_empty_generation :
    (handleGenerateClick (some ⟨"P", "image/png"⟩) none none "Studio" "" ""
      (fun _ => none) 0 ⟨[], [], none⟩).1.error = none ∧
    (handleGenerateClick (some ⟨"P", "image/png"⟩) none none "Studio" "" ""
      (fun _ => none) 0 ⟨[], [], none⟩).1.results = [] ∧
    (handleGenerateClick (some ⟨"P", "image/png"⟩) none none "Studio" "" ""
      (fun _ => none) 0 ⟨[], [], none⟩).1.history = [] :=
  ⟨rfl, rfl, rfl⟩

/-- C9 (amended): a successful generation producing at least one image
prepends exactly one new batch, holding exactly the produced result
entries, to the front of the batch list (most-recent-first); a successful
generation producing no image leaves the batch list unchanged. -/
theorem c9_amended_record_batch (p : JsFile) (mp rp : Option JsFile)
    (theme customTheme extra : String) (api : Nat → GenResponse) (now : Nat)
    (st : AppState) :
    ((handleGenerateClick (some p) mp rp theme customTheme extra api now st).1.results ≠ [] →
      (handleGenerateClick (some p) mp rp theme customTheme extra api now st).1.history =
        ⟨"history-" ++ toString now,
         (handleGenerateClick (some p) mp rp theme customTheme extra api now st).1.results⟩
          :: st.history) ∧
    ((handleGenerateClick (some p) mp rp theme customTheme extra api now st).1.results = [] →
      (handleGenerateClick (some p) mp rp theme customTheme extra api now st).1.history =
        st.history) := by
  constructor
  · intro hne
    simp only [handleGenerateClick] at hne ⊢
    rw [if_pos]
    exact List.length_pos.mpr hne
  · intro he
    simp only [handleGenerateClick] at he ⊢
    rw [he]
    simp

/-- C10: a recorded batch is an effectively immutable snapshot: refine,
undo, redo and pending-instruction edits rebuild the current result list
only and leave the batch list exactly as it was, and a later generation
only prepends — every previously recorded batch survives unchanged. -/
theorem c10_recorded_batches_unchanged :
    (∀ (rid : String) (st : AppState), (handleUndo rid st).history = st.history) ∧
    (∀ (rid : String) (st : AppState), (handleRedo rid st).history = st.history) ∧
    (∀ (rid prompt : String) (st : AppState),
      (handleRefinementPromptChange rid prompt st).history = st.history) ∧
    (∀ (rid cmd : String) (api : GenResponse) (st : AppState),
      (handleRefinement rid cmd api st).history = st.history) ∧
    (∀ (pp mp rp : Option JsFile) (theme customTheme extra : String)
        (api : Nat → GenResponse) (now : Nat) (st : AppState) (b : HistoryItem),
      b ∈ st.history →
      b ∈ (handleGenerateClick pp mp rp theme customTheme extra api now st).1.history) := by
  refine ⟨fun rid st => rfl, fun rid st => rfl, fun rid prompt st => rfl,
          fun rid cmd api st => ?_, fun pp mp rp theme ct extra api now st b hb => ?_⟩
  · unfold handleRefinement
    split
    · rfl
    · split
      · rfl
      · split
        · rfl
        · rfl
  · cases pp with
    | none => exact hb
    | some p =>
      simp only [handleGenerateClick]
      split
      · exact List.mem_cons_of_mem _ hb
      · exact hb

theorem mapIdx_eq_self {α : Type} (f : Nat → α → α) (l : List α)
    (h : ∀ (i : Nat) (hi : i < l.length), f i (l.get ⟨i, hi⟩) = l.get ⟨i, hi⟩) :
    l.mapIdx f = l := by
  apply List.ext_getElem?
  intro n
  rw [List.getElem?_mapIdx]
  by_cases hn : n < l.length
  · rw [List.getElem?_eq_getElem hn]
    show some (f n (l.get ⟨n, hn⟩)) = _
    rw [h n hn]
    rfl
  · rw [List.getElem?_eq_none (le_of_not_lt hn)]
    rfl

theorem findIdx?_entry (pre post : List ResultState) (e : ResultState) (rid : String)
    (hpre : ∀ r ∈ pre, r.id ≠ rid) (he : e.id = rid) :
    (pre ++ e :: post).findIdx? (fun r => r.id = rid) = some pre.length := by
  rw [List.findIdx?_append]
  have hnone : pre.findIdx? (fun r => decide (r.id = rid)) = none := by
    rw [List.findIdx?_eq_none_iff]
    intro r hr
    simpa using hpre r hr
  rw [hnone, Option.none_or, List.findIdx?_cons, if_pos (by simpa using he)]
  simp

/-- C1: refine on an entry with versions `[A, B, C]` and active index `0`
(after two undos), producing `D`, truncates to `[0..activeIndex]`, appends
`D`, jumps the index to the new end and clears the pending instruction:
the entry becomes `⟨[A, D], 1, ""⟩`; `B` and `C` are discarded and all
other entries are untouched. -/
theorem c1_refine_after_undo_discards_forward (pre post : List ResultState)
    (rid prompt0 A B C D cmd : String) (api : GenResponse) (st : AppState)
    (hres : st.results = pre ++ ⟨rid, [A, B, C], 0, prompt0⟩ :: post)
    (hpre : ∀ r ∈ pre, r.id ≠ rid)
    (hcmd : ¬ jsTrim cmd = "")
    (hapi : extractImageUrl api = some D) :
    (handleRefinement rid cmd api st).results =
      pre ++ ⟨rid, [A, D], 1, ""⟩ :: post := by
  have hfind : st.results.findIdx? (fun r => r.id = rid) = some pre.length := by
    rw [hres]
    exact findIdx?_entry pre post _ rid hpre rfl
  unfold handleRefinement
  split
  · rename_i hnone
    rw [hfind] at hnone
    exact Option.noConfusion hnone
  · rename_i k hk
    rw [hfind] at hk
    injection hk with hk2
    subst hk2
    rw [if_neg hcmd]
    split
    · rename_i url heq
      have h2 : extractImageUrl api = some url := heq
      rw [hapi] at h2
      injection h2 with h3
      subst h3
      show st.results.mapIdx _ = _
      rw [hres, List.mapIdx_append, List.mapIdx_cons]
      congr 1
      · apply mapIdx_eq_self
        intro i hi
        rw [if_pos (Nat.ne_of_lt hi)]
      · congr 1
        · rw [if_neg (by simp)]
          rfl
        · apply mapIdx_eq_self
          intro i hi
          rw [if_pos (by omega)]
    · rename_i heq
      have h2 : extractImageUrl api = none := heq
      rw [hapi] at h2
      exact Option.noConfusion h2

theorem WF_undo_entry (r : ResultState) (h : r.WF) :
    ResultState.WF { r with currentIndex := max 0 (r.currentIndex - 1) } := by
  obtain ⟨h1, h2⟩ := h
  constructor
  · show (0 : Int) ≤ max 0 (r.currentIndex - 1)
    omega
  · show max 0 (r.currentIndex - 1) ≤ (r.imageHistory.length : Int) - 1
    omega

theorem WF_redo_entry (r : ResultState) (h : r.WF) :
    ResultState.WF { r with currentIndex := min ((r.imageHistory.length : Int) - 1) (r.currentIndex + 1) } := by
  obtain ⟨h1, h2⟩ := h
  constructor
  · show (0 : Int) ≤ min ((r.imageHistory.length : Int) - 1) (r.currentIndex + 1)
    omega
  · show min ((r.imageHistory.length : Int) - 1) (r.currentIndex + 1) ≤
      (r.imageHistory.length : Int) - 1
    omega

theorem WF_refined_entry (res : ResultState) (u : ImageUrl) :
    ResultState.WF { res with
      imageHistory := res.imageHistory.take (res.currentIndex + 1).toNat ++ [u],
      currentIndex := ((res.imageHistory.take (res.currentIndex + 1).toNat ++ [u]).length : Int) - 1,
      refinementPrompt := "" } := by
  constructor
  · show (0 : Int) ≤
      ((res.imageHistory.take (res.currentIndex + 1).toNat ++ [u]).length : Int) - 1
    have hlen : (res.imageHistory.take (res.currentIndex + 1).toNat ++ [u]).length =
        (res.imageHistory.take (res.currentIndex + 1).toNat).length + 1 := by
      simp
    omega
  · exact le_refl _

/-- C2: undo clamps the matching entry's index with `max 0 (i-1)` and redo
with `min (versions.length-1) (i+1)`; undo at `0` and redo at the top are
no-ops (so repeated presses never leave the bounds); and the invariant
`0 ≤ activeIndex ≤ versions.length - 1` is preserved by undo, redo,
pending-instruction edits and refinement, and holds for every entry a
generation creates. -/
theorem c2_undo_redo_bounds_and_invariant :
    (∀ (rid : String) (st : AppState) (n : Nat),
      ((handleUndo rid st).results)[n]? = (st.results[n]?).map (fun r =>
        if r.id = rid then { r with currentIndex := max 0 (r.currentIndex - 1) }
        else r)) ∧
    (∀ (rid : String) (st : AppState) (n : Nat),
      ((handleRedo rid st).results)[n]? = (st.results[n]?).map (fun r =>
        if r.id = rid then
          { r with currentIndex := min ((r.imageHistory.length : Int) - 1) (r.currentIndex + 1) }
        else r)) ∧
    (∀ (rid : String) (st : AppState),
      (∀ r ∈ st.results, r.id = rid → r.currentIndex = 0) →
        handleUndo rid st = st) ∧
    (∀ (rid : String) (st : AppState),
      (∀ r ∈ st.results, r.id = rid →
        r.currentIndex = (r.imageHistory.length : Int) - 1) →
        handleRedo rid st = st) ∧
    (∀ (rid : String) (st : AppState), (∀ r ∈ st.results, r.WF) →
      ∀ r ∈ (handleUndo rid st).results, r.WF) ∧
    (∀ (rid : String) (st : AppState), (∀ r ∈ st.results, r.WF) →
      ∀ r ∈ (handleRedo rid st).results, r.WF) ∧
    (∀ (rid prompt : String) (st : AppState), (∀ r ∈ st.results, r.WF) →
      ∀ r ∈ (handleRefinementPromptChange rid prompt st).results, r.WF) ∧
    (∀ (rid cmd : String) (api : GenResponse) (st : AppState),
      (∀ r ∈ st.results, r.WF) →
      ∀ r ∈ (handleRefinement rid cmd api st).results, r.WF) ∧
    (∀ (pp mp rp : Option JsFile) (theme customTheme extra : String)
        (api : Nat → GenResponse) (now : Nat) (st : AppState),
      (∀ r ∈ st.results, r.WF) →
      ∀ r ∈ (handleGenerateClick pp mp rp theme customTheme extra api now st).1.results,
        r.WF) := by
  refine ⟨?_, ?_, ?_, ?_, ?_, ?_, ?_, ?_, ?_⟩
  · intro rid st n
    exact List.getElem?_map _ _ _
  · intro rid st n
    exact List.getElem?_map _ _ _
  · intro rid st h
    unfold handleUndo
    have hmap : st.results.map (fun res =>
        if res.id = rid then { res with currentIndex := max 0 (res.currentIndex - 1) }
        else res) = st.results.map id := by
      apply List.map_congr_left
      intro r hr
      by_cases hid : r.id = rid
      · rw [if_pos hid]
        have h0 : r.currentIndex = 0 := h r hr hid
        have hmax : max 0 (r.currentIndex - 1) = r.currentIndex := by omega
        rw [hmax]
        rfl
      · rw [if_neg hid]
        rfl
    rw [hmap, List.map_id]
  · intro rid st h
    unfold handleRedo
    have hmap : st.results.map (fun res =>
        if res.id = rid then
          { res with currentIndex := min ((res.imageHistory.length : Int) - 1) (res.currentIndex + 1) }
        else res) = st.results.map id := by
      apply List.map_congr_left
      intro r hr
      by_cases hid : r.id = rid
      · rw [if_pos hid]
        have h0 : r.currentIndex = (r.imageHistory.length : Int) - 1 := h r hr hid
        have hmin : min ((r.imageHistory.length : Int) - 1) (r.currentIndex + 1) =
            r.currentIndex := by omega
        rw [hmin]
        rfl
      · rw [if_neg hid]
        rfl
    rw [hmap, List.map_id]
  · intro rid st h r' hr'
    obtain ⟨r, hr, rfl⟩ := List.mem_map.mp hr'
    by_cases hid : r.id = rid
    · rw [if_pos hid]
      exact WF_undo_entry r (h r hr)
    · rw [if_neg hid]
      exact h r hr
  · intro rid st h r' hr'
    obtain ⟨r, hr, rfl⟩ := List.mem_map.mp hr'
    by_cases hid : r.id = rid
    · rw [if_pos hid]
      exact WF_redo_entry r (h r hr)
    · rw [if_neg hid]
      exact h r hr
  · intro rid prompt st h r' hr'
    obtain ⟨r, hr, rfl⟩ := List.mem_map.mp hr'
    by_cases hid : r.id = rid
    · rw [if_pos hid]
      exact h r hr
    · rw [if_neg hid]
      exact h r hr
  · intro rid cmd api st h r' hr'
    unfold handleRefinement at hr'
    split at hr'
    · exact h r' hr'
    · split at hr'
      · exact h r' hr'
      · split at hr'
        · rw [List.mem_mapIdx] at hr'
          obtain ⟨i, hi, hfi⟩ := hr'
          split at hfi
          · rw [← hfi]
            exact h _ (List.getElem_mem hi)
          · rw [← hfi]
            exact WF_refined_entry _ _
        · exact h r' hr'
  · intro pp mp rp theme customTheme extra api now st h r' hr'
    cases pp with
    | none => exact h r' hr'
    | some p =>
      simp only [handleGenerateClick] at hr'
      rw [List.mem_mapIdx] at hr'
      obtain ⟨i, hi, hfi⟩ := hr'
      rw [← hfi]
      constructor
      · exact le_refl _
      · show (0 : Int) ≤
          (([(generatePhotos p mp rp theme customTheme extra api).2[i]].length : Int)) - 1
        norm_num

theorem c1_refine_after_undo_witness :
    (handleRefinement "r" "go" (some [⟨some ("image/png", "D")⟩])
        ⟨[⟨"r", ["A", "B", "C"], 0, "p"⟩], [], none⟩).results =
      [⟨"r", ["A", "data:image/png;base64,D"], 1, ""⟩] :=
  c1_refine_after_undo_discards_forward [] [] "r" "p" "A" "B" "C"
    "data:image/png;base64,D" "go" (some [⟨some ("image/png", "D")⟩])
    ⟨[⟨"r", ["A", "B", "C"], 0, "p"⟩], [], none⟩ rfl (by decide) (by decide) rfl

theorem c2_bounds_witness :
    handleUndo "a" ⟨[⟨"a", ["u"], 0, ""⟩], [], none⟩ =
      ⟨[⟨"a", ["u"], 0, ""⟩], [], none⟩ ∧
    ResultState.WF ⟨"a", ["u", "v"], 1, ""⟩ :=
  ⟨c2_undo_redo_bounds_and_invariant.2.2.1 "a" ⟨[⟨"a", ["u"], 0, ""⟩], [], none⟩
     (by decide),
   c2_undo_redo_bounds_and_invariant.2.2.2.2.2.1 "a"
     ⟨[⟨"a", ["u", "v"], 0, ""⟩], [], none⟩ (by decide)
     ⟨"a", ["u", "v"], 1, ""⟩ (by decide)⟩

set_option maxRecDepth 8000 in
theorem c5_clauses_witness :
    appendClauses productBasePrompt "Sunset" "" = referenceBasePrompt
        ++ (if (if "None" = "None" then "Sunset" else "None") = "" then ""
            else " The theme should be: "
              ++ (if "None" = "None" then "Sunset" else "None") ++ ".")
        ++ (if "" = "" then "" else " Additional instructions: " ++ "" ++ ".") ∨
    appendClauses productBasePrompt "Sunset" "" = modelBasePrompt
        ++ (if (if "None" = "None" then "Sunset" else "None") = "" then ""
            else " The theme should be: "
              ++ (if "None" = "None" then "Sunset" else "None") ++ ".")
        ++ (if "" = "" then "" else " Additional instructions: " ++ "" ++ ".") ∨
    appendClauses productBasePrompt "Sunset" "" = productBasePrompt
        ++ (if (if "None" = "None" then "Sunset" else "None") = "" then ""
            else " The theme should be: "
              ++ (if "None" = "None" then "Sunset" else "None") ++ ".")
        ++ (if "" = "" then "" else " Additional instructions: " ++ "" ++ ".") :=
  c5_effective_theme_clauses "None" "Sunset" "" ⟨"P", "image/png"⟩ none none
    (fun _ => none)
    ⟨[ReqPart.inlineData "image/png" "P",
      ReqPart.text (appendClauses productBasePrompt "Sunset" "")]⟩
    (by decide) (appendClauses productBasePrompt "Sunset" "") (by decide)

theorem c8_refine_witness :
    (refineImage "data:image/png;base64,QQ" "fix" (some [])).2 = none ∧
    (handleRefinement "r" "fix" (some [])
        ⟨[⟨"r", ["u"], 0, ""⟩], [], none⟩).results = [⟨"r", ["u"], 0, ""⟩] ∧
    (handleRefinement "r" "fix" (some [])
        ⟨[⟨"r", ["u"], 0, ""⟩], [], none⟩).error =
      some "Failed to refine the image." ∧
    (refineImage ("data:" ++ "image/png" ++ ";base64," ++ "QQ") "fix"
        (some [⟨some ("image/jpeg", "RR")⟩])).1 =
      ⟨[.inlineData "image/png" "QQ", .text "fix"]⟩ ∧
    (refineImage "x" "fix" (some [⟨some ("image/jpeg", "RR")⟩])).2 =
      some "data:image/jpeg;base64,RR" :=
  ⟨c8_refine_call_and_failure.2.2.2.1 "data:image/png;base64,QQ" "fix" (some []) rfl,
   (c8_refine_call_and_failure.2.2.2.2.1 "r" "fix" (some [])
     ⟨[⟨"r", ["u"], 0, ""⟩], [], none⟩ rfl).1,
   c8_refine_call_and_failure.2.2.2.2.2 "r" "fix" (some [])
     ⟨[⟨"r", ["u"], 0, ""⟩], [], none⟩ 0 (by decide) (by decide) rfl,
   c8_refine_call_and_failure.2.1 "image/png" "QQ" (by decide) (by decide) (by decide)
     "fix" (some [⟨some ("image/jpeg", "RR")⟩]),
   c8_refine_call_and_failure.2.2.1 "x" "fix" (some [⟨some ("image/jpeg", "RR")⟩])
     "data:image/jpeg;base64,RR" rfl⟩

theorem c9_amended_witness :
    (handleGenerateClick (some ⟨"P", "image/png"⟩) none none "Studio" "" ""
        (fun _ => some [⟨some ("image/png", "R")⟩]) 7 ⟨[], [], none⟩).1.history =
      ⟨"history-" ++ toString 7,
       (handleGenerateClick (some ⟨"P", "image/png"⟩) none none "Studio" "" ""
         (fun _ => some [⟨some ("image/png", "R")⟩]) 7 ⟨[], [], none⟩).1.results⟩
        :: [] :=
  (c9_amended_record_batch ⟨"P", "image/png"⟩ none none "Studio" "" ""
    (fun _ => some [⟨some ("image/png", "R")⟩]) 7 ⟨[], [], none⟩).1 (by decide)

theorem c10_snapshot_witness :
    (⟨"b0", []⟩ : HistoryItem) ∈
      (handleGenerateClick none none none "Studio" "" "" (fun _ => none) 0
        ⟨[], [⟨"b0", []⟩], none⟩).1.history :=
  c10_recorded_batches_unchanged.2.2.2.2 none none none "Studio" "" ""
    (fun _ => none) 0 ⟨[], [⟨"b0", []⟩], none⟩ ⟨"b0", []⟩ (by decide)
